import Mathlib

/-!
Shallow embedding of the desktop-environment detection and wallpaper-assignment
engine of `natgeo-wallpapers` (`src/lib.rs`), together with theorems checking the
natural-language specification against it.

Modelling conventions:
* `PathBuf` values are modelled as `String`.
* External probes (`which`, `pgrep`, `qdbus`) are modelled as function
  parameters, so the pure decision logic built on top of them is embedded
  exactly as written in the source.
* Rust `for` loops that push onto a vector are embedded as folds or maps over
  `List.range`, preserving the loop counters of the source.
-/

set_option autoImplicit false

namespace NatGeo

/-- `WallpaperMode` from `src/lib.rs` (lines 63-69). -/
inductive WallpaperMode
  | Monitors
  | VirtualDesktops
  | Both
deriving DecidableEq, Repr

/-- `DesktopEnvironment` from `src/lib.rs` (lines 82-90). -/
inductive DesktopEnvironment
  | KdePlasma6
  | KdePlasma5
  | PlasmaFallback
  | Gnome
  | Feh
  | Unknown
deriving DecidableEq, Repr

/-- `WallpaperAssignment` from `src/lib.rs` (lines 729-734); `photo_path` is a
`PathBuf` in the source, modelled as `String`. -/
structure WallpaperAssignment where
  location : String
  photo_path : String
  is_newest : Bool
deriving DecidableEq, Repr

/-- The assignment pushed by the `Monitors` arm of `build_assignments`
(`src/lib.rs` lines 746-755): `photos[i % photos.len()]` is modelled with
`List.getD`, which agrees with the Rust indexing whenever `photos` is
non-empty. -/
def monitorAssignment (photos : List String) (i : Nat) : WallpaperAssignment :=
  { location := "Monitor " ++ toString (i + 1)
    photo_path := photos.getD (i % photos.length) ""
    is_newest := i == 0 }

/-- The assignment pushed by the `VirtualDesktops` arm of `build_assignments`
(`src/lib.rs` lines 756-765). -/
def vdAssignment (photos : List String) (i : Nat) : WallpaperAssignment :=
  { location := "Virtual Desktop " ++ toString (i + 1)
    photo_path := photos.getD (i % photos.length) ""
    is_newest := i == 0 }

/-- The assignment pushed by the `Both` arm of `build_assignments`
(`src/lib.rs` lines 766-779), at monitor `mon`, virtual desktop `vd`, with the
running counter at `idx`. -/
def bothAssignment (photos : List String) (mon vd idx : Nat) : WallpaperAssignment :=
  { location := "Monitor " ++ toString (mon + 1) ++ ", VD " ++ toString (vd + 1)
    photo_path := photos.getD (idx % photos.length) ""
    is_newest := idx == 0 }

/-- The nested loops of the `Both` arm of `build_assignments`
(`src/lib.rs` lines 766-779): the accumulator carries the assignment vector
together with the mutable running counter `idx`, incremented once per inner
iteration. -/
def buildBoth (photos : List String) (monitor_count vd_count : Nat) :
    List WallpaperAssignment × Nat :=
  (List.range vd_count).foldl
    (fun acc vd =>
      (List.range monitor_count).foldl
        (fun acc2 mon => (acc2.1 ++ [bothAssignment photos mon vd acc2.2], acc2.2 + 1))
        acc)
    ([], 0)

/-- `build_assignments` from `src/lib.rs` (lines 737-783). -/
def build_assignments (mode : WallpaperMode) (photos : List String)
    (monitor_count vd_count : Nat) : List WallpaperAssignment :=
  match mode with
  | .Monitors => (List.range monitor_count).map (monitorAssignment photos)
  | .VirtualDesktops => (List.range vd_count).map (vdAssignment photos)
  | .Both => (buildBoth photos monitor_count vd_count).1

/-- Inner loop of the `Both` arm: folding over `0..m` from accumulator `(l, k)`
appends one assignment per monitor and advances the counter by `m`. -/
theorem buildBoth_inner (photos : List String) (vd m : Nat) (l : List WallpaperAssignment)
    (k : Nat) :
    (List.range m).foldl
        (fun acc2 mon => (acc2.1 ++ [bothAssignment photos mon vd acc2.2], acc2.2 + 1))
        (l, k)
      = (l ++ (List.range m).map (fun mon => bothAssignment photos mon vd (k + mon)), k + m) := by
  induction m generalizing l k with
  | zero => simp
  | succ m ih =>
      rw [List.range_succ, List.foldl_append, ih]
      simp [List.range_succ, Nat.add_assoc]

/-- Outer loop of the `Both` arm in closed form: starting from `(l, k)`, the
`v` outer iterations append `v * m` assignments whose counter values continue
from `k`; position `j` of the appended block has monitor `j % m`, virtual
desktop `j / m` and counter `k + j`. -/
theorem buildBoth_outer (photos : List String) (m v : Nat) (l : List WallpaperAssignment)
    (k : Nat) :
    (List.range v).foldl
        (fun acc vd =>
          (List.range m).foldl
            (fun acc2 mon => (acc2.1 ++ [bothAssignment photos mon vd acc2.2], acc2.2 + 1))
            acc)
        (l, k)
      = (l ++ (List.range (v * m)).map
            (fun j => bothAssignment photos (j % m) (j / m) (k + j)), k + v * m) := by
  induction v generalizing l k with
  | zero => simp
  | succ v ih =>
      rw [List.range_succ, List.foldl_append, ih]
      simp only [List.foldl_cons, List.foldl_nil, buildBoth_inner]
      rw [Nat.succ_mul, List.range_add, List.map_append, List.append_assoc]
      congr 1
      congr 1
      · rw [List.map_map]
        congr 1
        apply List.map_congr_left
        intro j hj
        rw [List.mem_range] at hj
        have h1 : (v * m + j) % m = j := by
          rw [Nat.add_comm, Nat.add_mul_mod_self_right, Nat.mod_eq_of_lt hj]
        have h2 : (v * m + j) / m = v := by
          rw [Nat.mul_comm v m, Nat.mul_add_div (Nat.pos_of_ne_zero (by omega)),
            Nat.div_eq_of_lt hj, Nat.add_zero]
        simp [Function.comp, h1, h2, Nat.add_assoc]
      · omega

/-- The `Both` arm of `build_assignments` in closed form. -/
theorem build_assignments_Both_eq (photos : List String) (m v : Nat) :
    build_assignments .Both photos m v
      = (List.range (v * m)).map (fun j => bothAssignment photos (j % m) (j / m) j) := by
  unfold build_assignments buildBoth
  rw [buildBoth_outer]
  simp

/-- `detect_desktop_environment` from `src/lib.rs` (lines 591-607).  The ambient
probes `command_exists` (a `which` invocation, lines 573-579) and
`process_running` (a `pgrep` invocation, lines 582-588) are side-effecting
queries of host state in the source; they are passed as function parameters
here. -/
def detect_desktop_environment (command_exists process_running : String → Bool) :
    DesktopEnvironment :=
  let plasmashell_running := process_running "plasmashell"
  if command_exists "qdbus6" && plasmashell_running then .KdePlasma6
  else if command_exists "qdbus" && plasmashell_running then .KdePlasma5
  else if command_exists "plasma-apply-wallpaperimage" then .PlasmaFallback
  else if command_exists "gsettings" then .Gnome
  else if command_exists "feh" then .Feh
  else .Unknown

/-- Rust's `str::trim`: whitespace characters are removed from both ends of
the string, modelled on the character list. -/
def rustTrim (s : List Char) : List Char :=
  ((s.dropWhile Char.isWhitespace).reverse.dropWhile Char.isWhitespace).reverse

/-- Rust's `str::parse::<usize>()`: an optional leading `+` sign followed by at
least one ASCII digit, rejecting anything else and values that overflow the
64-bit `usize`. -/
def rustParseUsize (s : List Char) : Option Nat :=
  let digits := if s.head? = some '+' then s.tail else s
  if digits.isEmpty then none
  else if digits.all Char.isDigit then
    let n := digits.foldl (fun acc c => acc * 10 + (c.toNat - 48)) 0
    if n < 2 ^ 64 then some n else none
  else none

/-- `get_virtual_desktop_count` from `src/lib.rs` (lines 635-654).  The
parameter `stdout` models `output.ok().and_then(|o| String::from_utf8(o.stdout).ok())`:
`none` when spawning `qdbus6` failed or its stdout was not valid UTF-8, and
`some s` for a captured UTF-8 stdout `s`.  The source returns 1 for every
environment other than `KdePlasma6` before building any command, so for those
the result does not depend on `stdout` at all. -/
def get_virtual_desktop_count (de : DesktopEnvironment) (stdout : Option String) : Nat :=
  match de with
  | .KdePlasma6 => (stdout.bind (fun s => rustParseUsize (rustTrim s.toList))).getD 1
  | _ => 1

/-- The effective-mode computation of `set_wallpapers_with_options`
(`src/lib.rs` lines 1004-1007): `match de { KdePlasma6 => mode, _ => Monitors }`. -/
def effective_mode (de : DesktopEnvironment) (mode : WallpaperMode) : WallpaperMode :=
  match de with
  | .KdePlasma6 => mode
  | _ => .Monitors

/-- One `set_wallpaper_qdbus6(monitor_idx, photo_path)` invocation
(`src/lib.rs` lines 786-820), recorded as data. -/
structure ApplyCall where
  monitor_idx : Nat
  photo_path : String
deriving DecidableEq, Repr

/-- The per-target result reported by the apply loops of
`apply_kde_plasma6_wallpapers`: the printed/logged line for one assignment,
with `success := false` and the error text exactly when the branch matched
`Err(e)`. -/
structure ApplyOutcome where
  location : String
  success : Bool
  diagnostic : Option String
deriving DecidableEq, Repr

/-- The outcome the `Monitors` and `Both` arms report for one assignment
(`src/lib.rs` lines 1140-1155 and 1178-1193): `Ok` prints a success line,
`Err(e)` prints a failure line carrying `e`. -/
def outcomeOfResult (location : String) : Except String Unit → ApplyOutcome
  | .ok _ => { location := location, success := true, diagnostic := none }
  | .error e => { location := location, success := false, diagnostic := some e }

/-- `apply_kde_plasma6_wallpapers` from `src/lib.rs` (lines 1131-1197).  The
external tool `set_wallpaper_qdbus6` is modelled by the parameter `tool`
(monitor index and photo path to `Ok(())` or `Err(diagnostic)`).  The result
pairs the list of tool invocations made, in order, with the per-assignment
outcomes reported.  In the `VirtualDesktops` arm the source discards each
call's result (`let _ = set_wallpaper_qdbus6(mon, ...)`) and unconditionally
prints/logs a success line per assignment; that arm therefore reports
`success := true` with no diagnostic regardless of `tool`. -/
def apply_kde_plasma6_wallpapers (tool : Nat → String → Except String Unit)
    (assignments : List WallpaperAssignment) (mode : WallpaperMode)
    (monitor_count : Nat) : List ApplyCall × List ApplyOutcome :=
  match mode with
  | .Monitors =>
      (assignments.enum.map (fun p => { monitor_idx := p.1, photo_path := p.2.photo_path }),
       assignments.enum.map (fun p => outcomeOfResult p.2.location (tool p.1 p.2.photo_path)))
  | .VirtualDesktops =>
      (assignments.flatMap (fun a =>
         (List.range monitor_count).map
           (fun mon => { monitor_idx := mon, photo_path := a.photo_path })),
       assignments.map (fun a => { location := a.location, success := true, diagnostic := none }))
  | .Both =>
      (assignments.enum.map (fun p =>
         { monitor_idx := p.1 % monitor_count, photo_path := p.2.photo_path }),
       assignments.enum.map (fun p =>
         outcomeOfResult p.2.location (tool (p.1 % monitor_count) p.2.photo_path)))

/-- The error type of the source, restricted to the variants the embedded
pipeline can produce (`PhotoError::NoPhotos` and `PhotoError::Wallpaper`,
`src/lib.rs` lines 38-60). -/
inductive PhotoError
  | NoPhotos (msg : String)
  | Wallpaper (msg : String)
deriving DecidableEq, Repr

/-- The validation/ordering tail of `find_photos_in_path`
(`src/lib.rs` lines 714-725): given the recursively collected photo list, fail
with `NoPhotos` when it is empty, otherwise sort and reverse (newest first). -/
def find_photos_validate (collected : List String) (search_path : String) :
    Except PhotoError (List String) :=
  if collected.isEmpty then
    .error (.NoPhotos ("No photos found in " ++ search_path))
  else
    .ok ((collected.mergeSort (fun a b => decide (a ≤ b))).reverse)

/-- The pool-selection step of `set_wallpapers_with_options`
(`src/lib.rs` lines 949-953): shuffle the found photos when `random` is set,
otherwise keep them exactly as found.  The shuffle is modelled by the
parameter `shuffle`, since the source draws from a thread-local RNG. -/
def select_pool (found : List String) (random : Bool)
    (shuffle : List String → List String) : List String :=
  if random then shuffle found else found

/-- The front end of `set_wallpapers_with_options` (`src/lib.rs` lines
924-1010), from photo discovery up to assignment planning: discovery failure
(including an empty collected list) propagates via `?` (line 945), the pool is
optionally shuffled (lines 949-953), the `Unknown` environment aborts with a
`Wallpaper` error (lines 995-999), and otherwise the effective mode is
computed and `build_assignments` is called (lines 1004-1010).  Logging and
printing are omitted; the produced plan is returned. -/
def set_wallpapers_plan (mode : WallpaperMode) (collected : List String)
    (search_path : String) (random : Bool) (shuffle : List String → List String)
    (de : DesktopEnvironment) (monitor_count vd_count : Nat) :
    Except PhotoError (List WallpaperAssignment) :=
  match find_photos_validate collected search_path with
  | .error e => .error e
  | .ok found =>
      let photos := select_pool found random shuffle
      match de with
      | .Unknown => .error (.Wallpaper "No supported wallpaper tool found")
      | _ => .ok (build_assignments (effective_mode de mode) photos monitor_count vd_count)

/-- Rust's `str::replace` for a single-character pattern, on the character
list of the string: every occurrence of `c` is replaced by `repl`. -/
def replaceChar (c : Char) (repl : List Char) (s : List Char) : List Char :=
  s.flatMap (fun x => if x = c then repl else [x])

/-- `sanitize_title` from `src/lib.rs` (lines 547-556), on character lists:
`/` and space become `_`, `:` is removed, `|` becomes `-`, then the result is
truncated to its first 100 characters. -/
def sanitize_title (title : List Char) : List Char :=
  (replaceChar '|' ['-']
    (replaceChar ':' []
      (replaceChar ' ' ['_']
        (replaceChar '/' ['_'] title)))).take 100

/-- Default assignment value used with `List.getD` in theorem statements. -/
def defAsg : WallpaperAssignment := { location := "", photo_path := "", is_newest := false }

/-- Default outcome value used with `List.getD` in theorem statements. -/
def defOutcome : ApplyOutcome := { location := "", success := false, diagnostic := none }

/-- Claim C1: for every non-empty photo pool of length `n` and every
`monitor_count = m ≥ 1`, `build_assignments(Monitors, pool, m, v)` returns
exactly `m` assignments for any `v`; the assignment at position `i` has photo
`pool[i mod n]`, location label `"Monitor {i+1}"`, and `is_newest` true exactly
when `i = 0`. -/
theorem monitors_plan_correct (photos : List String) (m v : Nat)
    (hp : photos ≠ []) (hm : 1 ≤ m) :
    (build_assignments .Monitors photos m v).length = m ∧
    ∀ i, i < m →
      (build_assignments .Monitors photos m v).getD i defAsg
          = { location := "Monitor " ++ toString (i + 1)
              photo_path := photos.getD (i % photos.length) ""
              is_newest := i == 0 } ∧
        (((build_assignments .Monitors photos m v).getD i defAsg).is_newest = true ↔ i = 0) := by
  refine ⟨by simp [build_assignments], ?_⟩
  intro i hi
  have hlen : i < ((List.range m).map (monitorAssignment photos)).length := by
    simpa using hi
  constructor
  · rw [build_assignments, List.getD_eq_getElem _ _ hlen, List.getElem_map,
      List.getElem_range]
    rfl
  · rw [build_assignments, List.getD_eq_getElem _ _ hlen, List.getElem_map,
      List.getElem_range]
    simp [monitorAssignment]

/-- Witness for `monitors_plan_correct` at pool `["a", "b"]`, `m = 3`, `v = 7`. -/
theorem monitors_plan_correct_witness :
    (["a", "b"] : List String) ≠ [] ∧ 1 ≤ 3 ∧
      ((build_assignments .Monitors ["a", "b"] 3 7).length = 3 ∧
        ∀ i, i < 3 →
          (build_assignments .Monitors ["a", "b"] 3 7).getD i defAsg
              = { location := "Monitor " ++ toString (i + 1)
                  photo_path := (["a", "b"] : List String).getD (i % 2) ""
                  is_newest := i == 0 } ∧
            (((build_assignments .Monitors ["a", "b"] 3 7).getD i defAsg).is_newest = true
              ↔ i = 0)) :=
  ⟨by decide, by decide, monitors_plan_correct ["a", "b"] 3 7 (by decide) (by decide)⟩

/-- Claim C2: for every non-empty pool and every `m ≥ 1`, `v ≥ 1`,
`build_assignments(Both, pool, m, v)` returns exactly `m * v` assignments,
with the virtual-desktop index varying slower than the monitor index; the
single running counter equals the overall position `idx`, so the assignment at
position `idx` is on monitor `idx % m` of virtual desktop `idx / m`, has photo
`pool[idx mod n]`, label `"Monitor {idx % m + 1}, VD {idx / m + 1}"`, and
`is_newest` true only when `idx = 0`. -/
theorem both_plan_correct (photos : List String) (m v : Nat)
    (hp : photos ≠ []) (hm : 1 ≤ m) (hv : 1 ≤ v) :
    (build_assignments .Both photos m v).length = m * v ∧
    ∀ idx, idx < m * v →
      (build_assignments .Both photos m v).getD idx defAsg
          = { location := "Monitor " ++ toString (idx % m + 1) ++ ", VD "
                ++ toString (idx / m + 1)
              photo_path := photos.getD (idx % photos.length) ""
              is_newest := idx == 0 } ∧
        (((build_assignments .Both photos m v).getD idx defAsg).is_newest = true ↔ idx = 0) := by
  rw [build_assignments_Both_eq]
  refine ⟨by simp [Nat.mul_comm], ?_⟩
  intro idx hidx
  have hlen : idx < ((List.range (v * m)).map
      (fun j => bothAssignment photos (j % m) (j / m) j)).length := by
    simpa [Nat.mul_comm] using hidx
  constructor
  · rw [List.getD_eq_getElem _ _ hlen, List.getElem_map, List.getElem_range]
    rfl
  · rw [List.getD_eq_getElem _ _ hlen, List.getElem_map, List.getElem_range]
    simp [bothAssignment]

/-- Witness for `both_plan_correct` at pool `["a", "b", "c"]`, `m = 2`, `v = 2`. -/
theorem both_plan_correct_witness :
    (["a", "b", "c"] : List String) ≠ [] ∧ 1 ≤ 2 ∧ 1 ≤ 2 ∧
      ((build_assignments .Both ["a", "b", "c"] 2 2).length = 2 * 2 ∧
        ∀ idx, idx < 2 * 2 →
          (build_assignments .Both ["a", "b", "c"] 2 2).getD idx defAsg
              = { location := "Monitor " ++ toString (idx % 2 + 1) ++ ", VD "
                    ++ toString (idx / 2 + 1)
                  photo_path := (["a", "b", "c"] : List String).getD (idx % 3) ""
                  is_newest := idx == 0 } ∧
            (((build_assignments .Both ["a", "b", "c"] 2 2).getD idx defAsg).is_newest = true
              ↔ idx = 0)) :=
  ⟨by decide, by decide, by decide,
    both_plan_correct ["a", "b", "c"] 2 2 (by decide) (by decide) (by decide)⟩

/-- Claim C3: the effective mode computed before planning preserves the
requested mode precisely for `KdePlasma6` — it returns the requested mode for
`KdePlasma6`, returns `Monitors` for every other kind (including `Unknown`)
regardless of the request, and preserves every requested mode if and only if
the kind is `KdePlasma6`. -/
theorem effective_mode_correct :
    (∀ mode, effective_mode .KdePlasma6 mode = mode) ∧
    (∀ de mode, de ≠ .KdePlasma6 → effective_mode de mode = .Monitors) ∧
    (∀ de, (∀ mode, effective_mode de mode = mode) ↔ de = .KdePlasma6) := by
  refine ⟨fun _ => rfl, ?_, ?_⟩
  · intro de mode hde
    cases de <;> first | exact absurd rfl hde | rfl
  · intro de
    constructor
    · intro h
      cases de <;> first | rfl | exact absurd (h .VirtualDesktops) (by simp [effective_mode])
    · rintro rfl
      exact fun _ => rfl

/-- Witness for `effective_mode_correct`: `Gnome` downgrades `Both` to
`Monitors`, while `KdePlasma6` keeps `Both`. -/
theorem effective_mode_correct_witness :
    effective_mode .Gnome .Both = .Monitors ∧ effective_mode .KdePlasma6 .Both = .Both :=
  ⟨effective_mode_correct.2.1 .Gnome .Both (by decide), effective_mode_correct.1 .Both⟩

/-- Claim C4 counterexample: in the `VirtualDesktops` arm of
`apply_kde_plasma6_wallpapers`, with a tool that fails every call with
diagnostic `"boom"`, one assignment and one monitor, exactly one tool call is
made and it fails, yet the single reported outcome has `success = true` with
no diagnostic — the call's failure is not converted into a `success = false`
outcome carrying the tool's diagnostic output. -/
theorem vd_apply_discards_failure :
    apply_kde_plasma6_wallpapers (fun _ _ => .error "boom")
        [{ location := "Virtual Desktop 1", photo_path := "p", is_newest := true }]
        .VirtualDesktops 1
      = ([{ monitor_idx := 0, photo_path := "p" }],
         [{ location := "Virtual Desktop 1", success := true, diagnostic := none }]) := by
  rfl

/-- Claim C4 (amended): apply failures never stop the batch — every mode
reports exactly one outcome per assignment; in the `Monitors` and `Both` arms
of the Plasma 6 applier each call's failure is caught and converted into a
per-target outcome with `success = false` carrying the tool's diagnostic
output (and successes into `success = true`); in the `VirtualDesktops` arm the
per-monitor call results are discarded and every assignment is reported as
`success = true` with no diagnostic, whatever the tool returned. -/
theorem apply_failure_handling (tool : Nat → String → Except String Unit)
    (assignments : List WallpaperAssignment) (m : Nat) :
    (∀ mode, ((apply_kde_plasma6_wallpapers tool assignments mode m).2).length
        = assignments.length) ∧
    (∀ i, i < assignments.length →
      ((apply_kde_plasma6_wallpapers tool assignments .Monitors m).2).getD i defOutcome
        = outcomeOfResult (assignments.getD i defAsg).location
            (tool i (assignments.getD i defAsg).photo_path)) ∧
    (∀ i, i < assignments.length →
      ((apply_kde_plasma6_wallpapers tool assignments .Both m).2).getD i defOutcome
        = outcomeOfResult (assignments.getD i defAsg).location
            (tool (i % m) (assignments.getD i defAsg).photo_path)) ∧
    (∀ o, o ∈ (apply_kde_plasma6_wallpapers tool assignments .VirtualDesktops m).2 →
      o.success = true ∧ o.diagnostic = none) := by
  refine ⟨?_, ?_, ?_, ?_⟩
  · intro mode
    cases mode <;> simp [apply_kde_plasma6_wallpapers, List.enum_length]
  · intro i hi
    have hlen : i < (assignments.enum.map
        (fun p => outcomeOfResult p.2.location (tool p.1 p.2.photo_path))).length := by
      simpa [List.enum_length] using hi
    rw [apply_kde_plasma6_wallpapers]
    rw [List.getD_eq_getElem _ _ hlen, List.getElem_map, List.getElem_enum,
      List.getD_eq_getElem _ _ hi]
  · intro i hi
    have hlen : i < (assignments.enum.map
        (fun p => outcomeOfResult p.2.location (tool (p.1 % m) p.2.photo_path))).length := by
      simpa [List.enum_length] using hi
    rw [apply_kde_plasma6_wallpapers]
    rw [List.getD_eq_getElem _ _ hlen, List.getElem_map, List.getElem_enum,
      List.getD_eq_getElem _ _ hi]
  · intro o ho
    rw [apply_kde_plasma6_wallpapers] at ho
    simp only [List.mem_map] at ho
    obtain ⟨a, -, rfl⟩ := ho
    exact ⟨rfl, rfl⟩

/-- Witness for `apply_failure_handling` at a failing tool, two assignments,
one monitor: the `Monitors` arm converts the failure at position 0. -/
theorem apply_failure_handling_witness :
    (0 : Nat) < ([{ location := "Monitor 1", photo_path := "p", is_newest := true },
        { location := "Monitor 2", photo_path := "q", is_newest := false }]
          : List WallpaperAssignment).length ∧
    ((apply_kde_plasma6_wallpapers (fun _ _ => .error "down")
        [{ location := "Monitor 1", photo_path := "p", is_newest := true },
         { location := "Monitor 2", photo_path := "q", is_newest := false }]
        .Monitors 1).2).getD 0 defOutcome
      = outcomeOfResult
          (([{ location := "Monitor 1", photo_path := "p", is_newest := true },
             { location := "Monitor 2", photo_path := "q", is_newest := false }]
              : List WallpaperAssignment).getD 0 defAsg).location
          ((fun _ _ => Except.error "down") 0
            (([{ location := "Monitor 1", photo_path := "p", is_newest := true },
               { location := "Monitor 2", photo_path := "q", is_newest := false }]
                : List WallpaperAssignment).getD 0 defAsg).photo_path) :=
  ⟨by decide,
    (apply_failure_handling (fun _ _ => Except.error "down")
      [{ location := "Monitor 1", photo_path := "p", is_newest := true },
       { location := "Monitor 2", photo_path := "q", is_newest := false }] 1).2.1 0
      (by decide)⟩

/-- Claim C5: with environment `KdePlasma6` and requested mode
`VirtualDesktops` (which the effective-mode rule keeps unchanged), the plan
has one assignment per virtual desktop, and the applier issues one
`set_wallpaper_qdbus6` call per monitor index in `0..m` for each assignment,
each call carrying that assignment's single photo `pool[j mod n]`; in total
`m * v` calls are made. -/
theorem vd_apply_calls_per_monitor (tool : Nat → String → Except String Unit)
    (pool : List String) (m v : Nat) (hp : pool ≠ []) (hm : 1 ≤ m) (hv : 1 ≤ v) :
    (build_assignments (effective_mode .KdePlasma6 .VirtualDesktops) pool m v).length = v ∧
    (apply_kde_plasma6_wallpapers tool
        (build_assignments (effective_mode .KdePlasma6 .VirtualDesktops) pool m v)
        .VirtualDesktops m).1
      = (List.range v).flatMap (fun j =>
          (List.range m).map (fun mon =>
            { monitor_idx := mon, photo_path := pool.getD (j % pool.length) "" })) ∧
    ((apply_kde_plasma6_wallpapers tool
        (build_assignments (effective_mode .KdePlasma6 .VirtualDesktops) pool m v)
        .VirtualDesktops m).1).length = m * v := by
  have hplan : build_assignments (effective_mode .KdePlasma6 .VirtualDesktops) pool m v
      = (List.range v).map (vdAssignment pool) := rfl
  refine ⟨by rw [hplan]; simp, ?_, ?_⟩
  · rw [apply_kde_plasma6_wallpapers, hplan, List.flatMap_map]
    rfl
  · rw [apply_kde_plasma6_wallpapers, hplan, List.flatMap_map]
    simp [List.length_flatMap, Function.comp_def, List.map_const', List.sum_replicate,
      Nat.mul_comm]

/-- Witness for `vd_apply_calls_per_monitor` at a two-photo pool, 3 monitors,
2 virtual desktops: 6 calls in total. -/
theorem vd_apply_calls_per_monitor_witness :
    (["a", "b"] : List String) ≠ [] ∧ 1 ≤ 3 ∧ 1 ≤ 2 ∧
      ((build_assignments (effective_mode .KdePlasma6 .VirtualDesktops) ["a", "b"] 3 2).length
          = 2 ∧
        (apply_kde_plasma6_wallpapers (fun _ _ => .ok ())
            (build_assignments (effective_mode .KdePlasma6 .VirtualDesktops) ["a", "b"] 3 2)
            .VirtualDesktops 3).1
          = (List.range 2).flatMap (fun j =>
              (List.range 3).map (fun mon =>
                { monitor_idx := mon,
                  photo_path := (["a", "b"] : List String).getD (j % 2) "" })) ∧
        ((apply_kde_plasma6_wallpapers (fun _ _ => .ok ())
            (build_assignments (effective_mode .KdePlasma6 .VirtualDesktops) ["a", "b"] 3 2)
            .VirtualDesktops 3).1).length = 3 * 2) :=
  ⟨by decide, by decide, by decide,
    vd_apply_calls_per_monitor (fun _ _ => .ok ()) ["a", "b"] 3 2
      (by decide) (by decide) (by decide)⟩

/-- Claim C6: for every combination of probe results, the classifier returns
exactly one kind by first-match priority — `KdePlasma6` when `qdbus6` exists
and `plasmashell` runs; else `KdePlasma5` when `qdbus` exists and
`plasmashell` runs; else `PlasmaFallback`, `Gnome`, `Feh` on the presence of
their executable alone; else `Unknown`.  Classification is total, and absence
of every executable yields `Unknown`. -/
theorem detect_desktop_environment_correct (ex run : String → Bool) :
    ((detect_desktop_environment ex run = .KdePlasma6 ↔
        ex "qdbus6" = true ∧ run "plasmashell" = true) ∧
      (detect_desktop_environment ex run = .KdePlasma5 ↔
        ¬(ex "qdbus6" = true ∧ run "plasmashell" = true) ∧
          ex "qdbus" = true ∧ run "plasmashell" = true) ∧
      (detect_desktop_environment ex run = .PlasmaFallback ↔
        ¬(ex "qdbus6" = true ∧ run "plasmashell" = true) ∧
          ¬(ex "qdbus" = true ∧ run "plasmashell" = true) ∧
          ex "plasma-apply-wallpaperimage" = true) ∧
      (detect_desktop_environment ex run = .Gnome ↔
        ¬(ex "qdbus6" = true ∧ run "plasmashell" = true) ∧
          ¬(ex "qdbus" = true ∧ run "plasmashell" = true) ∧
          ex "plasma-apply-wallpaperimage" = false ∧ ex "gsettings" = true) ∧
      (detect_desktop_environment ex run = .Feh ↔
        ¬(ex "qdbus6" = true ∧ run "plasmashell" = true) ∧
          ¬(ex "qdbus" = true ∧ run "plasmashell" = true) ∧
          ex "plasma-apply-wallpaperimage" = false ∧ ex "gsettings" = false ∧
          ex "feh" = true) ∧
      (detect_desktop_environment ex run = .Unknown ↔
        ¬(ex "qdbus6" = true ∧ run "plasmashell" = true) ∧
          ¬(ex "qdbus" = true ∧ run "plasmashell" = true) ∧
          ex "plasma-apply-wallpaperimage" = false ∧ ex "gsettings" = false ∧
          ex "feh" = false)) ∧
    ((∀ c, ex c = false) → detect_desktop_environment ex run = .Unknown) := by
  constructor
  · cases h6 : ex "qdbus6" <;> cases hr : run "plasmashell" <;> cases h5 : ex "qdbus" <;>
      cases hpa : ex "plasma-apply-wallpaperimage" <;> cases hg : ex "gsettings" <;>
      cases hf : ex "feh" <;>
      simp [detect_desktop_environment, h6, hr, h5, hpa, hg, hf]
  · intro h
    simp [detect_desktop_environment, h]

/-- Witness for `detect_desktop_environment_correct`: with no executable
present, the classifier yields `Unknown`. -/
theorem detect_desktop_environment_correct_witness :
    detect_desktop_environment (fun _ => false) (fun _ => true) = .Unknown :=
  (detect_desktop_environment_correct (fun _ => false) (fun _ => true)).2 (fun _ => rfl)

/-- Claim C7: `get_virtual_desktop_count` returns 1 for every kind other than
`KdePlasma6` — the source hits the catch-all match arm before building any
command, so the result does not depend on the probe at all; for `KdePlasma6`,
a failed or non-UTF8 probe (`stdout = none`) and non-numeric output
(`rustParseUsize s.trim = none`) also yield 1.  The function is total with no
error result. -/
theorem vd_count_probe_failures (de : DesktopEnvironment) (stdout : Option String) :
    (de ≠ .KdePlasma6 → get_virtual_desktop_count de stdout = 1) ∧
    (get_virtual_desktop_count de none = 1) ∧
    (∀ s, rustParseUsize (rustTrim s.toList) = none →
      get_virtual_desktop_count .KdePlasma6 (some s) = 1) := by
  refine ⟨?_, ?_, ?_⟩
  · intro h
    cases de <;> first | exact absurd rfl h | rfl
  · cases de <;> rfl
  · intro s h
    have h' : rustParseUsize (rustTrim s.data) = none := h
    simp [get_virtual_desktop_count, h']

/-- Witness for `vd_count_probe_failures`: `Gnome` ignores a numeric probe, and
`KdePlasma6` downgrades the non-numeric output `"4a"` to 1. -/
theorem vd_count_probe_failures_witness :
    DesktopEnvironment.Gnome ≠ DesktopEnvironment.KdePlasma6 ∧
    get_virtual_desktop_count .Gnome (some "7") = 1 ∧
    rustParseUsize (rustTrim (" 4a" : String).toList) = none ∧
    get_virtual_desktop_count .KdePlasma6 (some " 4a") = 1 :=
  ⟨by decide, (vd_count_probe_failures .Gnome (some "7")).1 (by decide), by decide,
    (vd_count_probe_failures .Gnome (some "7")).2.2 " 4a" (by decide)⟩

/-- Claim C8: when the discovered photo list is empty, the set-wallpapers
pipeline fails with the `NoPhotos` error before any planning or apply attempt,
for both values of the randomize flag; and with randomize off the pool-selection
step passes the found photos through unchanged. -/
theorem empty_pool_fails (mode : WallpaperMode) (search_path : String) (random : Bool)
    (shuffle : List String → List String) (de : DesktopEnvironment) (m v : Nat) :
    set_wallpapers_plan mode [] search_path random shuffle de m v
        = .error (.NoPhotos ("No photos found in " ++ search_path)) ∧
    (∀ found, select_pool found false shuffle = found) :=
  ⟨rfl, fun _ => rfl⟩

/-- Witness for `empty_pool_fails` at mode `Both`, a shuffling function, and a
Plasma 6 environment. -/
theorem empty_pool_fails_witness :
    set_wallpapers_plan .Both [] "/pics" true (fun l => l.reverse) .KdePlasma6 2 3
      = .error (.NoPhotos ("No photos found in " ++ "/pics")) :=
  (empty_pool_fails .Both "/pics" true (fun l => l.reverse) .KdePlasma6 2 3).1

/-- Claim C9: for every mode, every non-empty pool, and every monitor and
virtual-desktop count at least 1, the plan produced by `build_assignments` is
non-empty, the assignment at position `i` has `is_newest` true exactly when
`i = 0` (so exactly one assignment is primary and it is the first), and every
photo path in the plan is drawn from the pool by index modulo pool length. -/
theorem plan_primary_invariant (mode : WallpaperMode) (photos : List String) (m v : Nat)
    (hp : photos ≠ []) (hm : 1 ≤ m) (hv : 1 ≤ v) :
    build_assignments mode photos m v ≠ [] ∧
    (∀ i, i < (build_assignments mode photos m v).length →
      (((build_assignments mode photos m v).getD i defAsg).is_newest = true ↔ i = 0)) ∧
    (∀ a, a ∈ build_assignments mode photos m v →
      ∃ i, a.photo_path = photos.getD (i % photos.length) "") := by
  cases mode with
  | Monitors =>
      refine ⟨?_, ?_, ?_⟩
      · have hlen : (build_assignments .Monitors photos m v).length = m := by
          simp [build_assignments]
        intro hnil
        rw [hnil] at hlen
        simp at hlen
        omega
      · intro i hi
        have hi' : i < m := by simpa [build_assignments] using hi
        have hmem : i < ((List.range m).map (monitorAssignment photos)).length := by
          simpa using hi'
        rw [build_assignments, List.getD_eq_getElem _ _ hmem, List.getElem_map,
          List.getElem_range]
        simp [monitorAssignment]
      · intro a ha
        rw [build_assignments] at ha
        obtain ⟨j, -, rfl⟩ := List.mem_map.1 ha
        exact ⟨j, rfl⟩
  | VirtualDesktops =>
      refine ⟨?_, ?_, ?_⟩
      · have hlen : (build_assignments .VirtualDesktops photos m v).length = v := by
          simp [build_assignments]
        intro hnil
        rw [hnil] at hlen
        simp at hlen
        omega
      · intro i hi
        have hi' : i < v := by simpa [build_assignments] using hi
        have hmem : i < ((List.range v).map (vdAssignment photos)).length := by
          simpa using hi'
        rw [build_assignments, List.getD_eq_getElem _ _ hmem, List.getElem_map,
          List.getElem_range]
        simp [vdAssignment]
      · intro a ha
        rw [build_assignments] at ha
        obtain ⟨j, -, rfl⟩ := List.mem_map.1 ha
        exact ⟨j, rfl⟩
  | Both =>
      have hb := build_assignments_Both_eq photos m v
      refine ⟨?_, ?_, ?_⟩
      · have hlen : (build_assignments .Both photos m v).length = v * m := by
          rw [hb]; simp
        intro hnil
        rw [hnil] at hlen
        simp at hlen
        rcases hlen with h | h <;> omega
      · intro i hi
        have hi' : i < v * m := by
          rw [hb] at hi; simpa using hi
        have hmem : i < ((List.range (v * m)).map
            (fun j => bothAssignment photos (j % m) (j / m) j)).length := by
          simpa using hi'
        rw [hb, List.getD_eq_getElem _ _ hmem, List.getElem_map, List.getElem_range]
        simp [bothAssignment]
      · intro a ha
        rw [hb] at ha
        obtain ⟨j, -, rfl⟩ := List.mem_map.1 ha
        exact ⟨j, rfl⟩

/-- Witness for `plan_primary_invariant` at mode `Both`, a two-photo pool,
`m = 2`, `v = 2`. -/
theorem plan_primary_invariant_witness :
    (["p", "q"] : List String) ≠ [] ∧ 1 ≤ 2 ∧ 1 ≤ 2 ∧
      (build_assignments .Both ["p", "q"] 2 2 ≠ [] ∧
        (∀ i, i < (build_assignments .Both ["p", "q"] 2 2).length →
          (((build_assignments .Both ["p", "q"] 2 2).getD i defAsg).is_newest = true ↔ i = 0)) ∧
        (∀ a, a ∈ build_assignments .Both ["p", "q"] 2 2 →
          ∃ i, a.photo_path = (["p", "q"] : List String).getD (i % 2) "")) :=
  ⟨by decide, by decide, by decide,
    plan_primary_invariant .Both ["p", "q"] 2 2 (by decide) (by decide) (by decide)⟩

/-- Membership in a single-character replacement: an element of the result is
either a replacement character or an untouched original distinct from the
replaced character. -/
theorem mem_replaceChar {c f : Char} {repl s : List Char}
    (h : c ∈ replaceChar f repl s) : c ∈ repl ∨ (c ∈ s ∧ c ≠ f) := by
  rw [replaceChar, List.mem_flatMap] at h
  obtain ⟨x, hx, hcx⟩ := h
  by_cases hxf : x = f
  · rw [if_pos hxf] at hcx
    exact Or.inl hcx
  · rw [if_neg hxf] at hcx
    rw [List.mem_singleton] at hcx
    subst hcx
    exact Or.inr ⟨hx, hxf⟩

/-- Claim C10: for every input, `sanitize_title` returns at most 100 characters
and the result contains none of `/`, space, `:`, `|` — slashes and spaces
become underscores, colons are removed, pipes become hyphens, and the result is
truncated to 100 characters. -/
theorem sanitize_title_correct (title : List Char) :
    (sanitize_title title).length ≤ 100 ∧
    ∀ c, c ∈ sanitize_title title → c ≠ '/' ∧ c ≠ ' ' ∧ c ≠ ':' ∧ c ≠ '|' := by
  constructor
  · rw [sanitize_title]
    simp
  · intro c hc
    rw [sanitize_title] at hc
    have hc' := List.mem_of_mem_take hc
    rcases mem_replaceChar hc' with h1 | ⟨h2, hne4⟩
    · rw [List.mem_singleton] at h1
      subst h1
      decide
    · rcases mem_replaceChar h2 with h3 | ⟨h4, hne3⟩
      · exact absurd h3 (List.not_mem_nil c)
      · rcases mem_replaceChar h4 with h5 | ⟨h6, hne2⟩
        · rw [List.mem_singleton] at h5
          subst h5
          decide
        · rcases mem_replaceChar h6 with h7 | ⟨h8, hne1⟩
          · rw [List.mem_singleton] at h7
            subst h7
            decide
          · exact ⟨hne1, hne2, hne3, hne4⟩

/-- Witness for `sanitize_title_correct` at a concrete title containing all
four special characters. -/
theorem sanitize_title_correct_witness :
    (sanitize_title (("a/b: c|d" : String).toList)).length ≤ 100 :=
  (sanitize_title_correct (("a/b: c|d" : String).toList)).1

end NatGeo
